import Mathlib

/-!
# Verification of the pogicity-demo traffic / citizen simulation core

Shallow embedding of `src/app/components/game/phaser/TrafficManager.ts` and
`src/app/components/game/phaser/CitizenManager.ts`.  Continuous positions
(JS numbers) are modelled as rationals; `Math.floor` is `Int.floor`;
`Math.sqrt d < r` comparisons are modelled as `d < r^2` (both sides are
non-negative in every use site); every call to `Math.random()` is modelled
as an explicit oracle field, universally quantified in the theorems.
-/

namespace Pogicity

/-- The four cardinal directions (`Direction` in `types.ts`). -/
inductive Direction where
  | up | down | left | right
deriving DecidableEq, Repr

/-- Tile kinds relevant to the two managers (`TileType` in `types.ts`):
sidewalk-like and plain walkable surfaces, road lanes, road turns
(intersections), and a generic non-walkable kind standing for all others. -/
inductive TileType where
  | sidewalk | tile | cobblestone | roadLane | roadTurn | grass
deriving DecidableEq, Repr

/-- Traffic-light colors reported by the signal collaborator. -/
inductive LightColor where
  | red | yellow | green
deriving DecidableEq, Repr

/-- Vehicle classes (`CarType` in `types.ts`); the update logic never
inspects the class, so the exact constructors are irrelevant. -/
inductive CarType where
  | jeep | taxi | waymo | robotaxi | zoox
deriving DecidableEq, Repr

/-- Pedestrian types (`CharacterType` in `types.ts`). -/
inductive CharacterType where
  | banana | apple
deriving DecidableEq, Repr

/-- Modelled from the spec: `directionVectors` of `roadUtils.ts` (not under
`src/`) — the unit displacement of each cardinal direction in grid
coordinates (y grows downwards). -/
def dirVec : Direction → ℤ × ℤ
  | .up => (0, -1)
  | .down => (0, 1)
  | .left => (-1, 0)
  | .right => (1, 0)

/-- Modelled from the spec: `oppositeDirection` of `roadUtils.ts` — the
exact opposite of a cardinal direction. -/
def oppositeDirection : Direction → Direction
  | .up => .down
  | .down => .up
  | .left => .right
  | .right => .left

/-- Modelled from the spec: `rightTurnDirection` of `roadUtils.ts`. -/
def rightTurnDirection : Direction → Direction
  | .up => .right
  | .right => .down
  | .down => .left
  | .left => .up

/-- Modelled from the spec: `leftTurnDirection` of `roadUtils.ts`. -/
def leftTurnDirection : Direction → Direction
  | .up => .left
  | .left => .down
  | .down => .right
  | .right => .up

/-- Modelled from the spec: `isRoadTileType` of `roadUtils.ts` — road
tiles are the road-lane and road-turn kinds. -/
def isRoadTileType (t : TileType) : Bool :=
  t = TileType.roadLane ∨ t = TileType.roadTurn

/-- Modelled from the spec: `getRoadLaneOrigin` of `roadUtils.ts` — the
top-left cell of the 2×2-aligned lane block containing a cell. -/
def getRoadLaneOrigin (gx gy : ℕ) : ℕ × ℕ :=
  (gx - gx % 2, gy - gy % 2)

/-- A grid cell (`GridCell` of `types.ts`, the fields the managers read). -/
structure GridCell where
  type : TileType
  isOrigin : Bool
  originX : Option ℕ
  originY : Option ℕ
  laneDirection : Option Direction
deriving DecidableEq, Repr

/-- The static grid, indexed `grid[row][col]` as in the TS code. -/
abbrev Grid := List (List GridCell)

/-- `grid[gy]?.[gx]` — optional-chained 2-D indexing; negative or
out-of-range indices yield `none`, as JS indexing yields `undefined`. -/
def getCell (g : Grid) (gx gy : ℤ) : Option GridCell :=
  if 0 ≤ gx ∧ 0 ≤ gy then
    (g.get? gy.toNat).bind (fun row => row.get? gx.toNat)
  else none

/-- `ROAD_LANE_SIZE` of `types.ts`: lane blocks are 2×2 (spec §3). -/
def ROAD_LANE_SIZE : ℕ := 2

-- ============================================
-- TrafficManager
-- ============================================

/-- A vehicle (`Car` of `types.ts`).  The optional `inIntersection` flag of
the TS object is modelled as a `Bool`; the code reads it only through
`car.inIntersection || false`, under which `undefined` and `false` agree. -/
structure Car where
  id : ℕ
  x : ℚ
  y : ℚ
  direction : Direction
  speed : ℚ
  waiting : ℕ
  carType : CarType
  inIntersection : Bool
deriving DecidableEq, Repr

/-- Modelled from the spec: the slice of the external `TrafficLightManager`
consumed by `TrafficManager` — `getLightColor(x, y, direction)` reporting
the light facing `direction` at an intersection origin. -/
structure TrafficLights where
  lights : ℕ → ℕ → Direction → LightColor

/-- The state a `TrafficManager` reads besides its own car list: the grid,
the `GRID_WIDTH`/`GRID_HEIGHT` bounds, the optional light manager, and the
`CAR_SPEED` base constant used at spawn. -/
structure TrafficEnv where
  gridW : ℕ
  gridH : ℕ
  grid : Grid
  tlm : Option TrafficLights
  carSpeed : ℚ

/-- The resolved lane view returned by `getLaneAt` / `getNextLane`. -/
structure LaneInfo where
  originX : ℕ
  originY : ℕ
  direction : Direction
  type : TileType
deriving DecidableEq, Repr

/-- `TrafficManager.getLaneAt` — floor the position, bounds-check, require
a road tile, resolve its 2×2 origin and read the origin cell's direction. -/
def getLaneAt (env : TrafficEnv) (x y : ℚ) : Option LaneInfo :=
  let gx : ℤ := ⌊x⌋
  let gy : ℤ := ⌊y⌋
  if gx < 0 ∨ gx ≥ env.gridW ∨ gy < 0 ∨ gy ≥ env.gridH then none
  else
    match getCell env.grid gx gy with
    | none => none
    | some cell =>
      if ¬ isRoadTileType cell.type then none
      else
        let originX := cell.originX.getD (getRoadLaneOrigin gx.toNat gy.toNat).1
        let originY := cell.originY.getD (getRoadLaneOrigin gx.toNat gy.toNat).2
        match (env.grid.get? originY).bind (fun row => row.get? originX) with
        | none => none
        | some originCell =>
          match originCell.laneDirection with
          | none => none
          | some d => some ⟨originX, originY, d, originCell.type⟩

/-- `TrafficManager.getLaneCenter` — center of the 2×2 block
(`origin + ROAD_LANE_SIZE / 2 = origin + 1` on both axes). -/
def getLaneCenter (laneOriginX laneOriginY : ℕ) : ℚ × ℚ :=
  ((laneOriginX : ℚ) + ROAD_LANE_SIZE / 2, (laneOriginY : ℚ) + ROAD_LANE_SIZE / 2)

/-- `TrafficManager.getNextLane` — step one full lane block (2 cells) in
`dir`; fail if out of bounds, not a road tile, not an origin, or missing
direction metadata. -/
def getNextLane (env : TrafficEnv) (fromOriginX fromOriginY : ℕ) (dir : Direction) :
    Option LaneInfo :=
  let vec := dirVec dir
  let nextOriginX : ℤ := (fromOriginX : ℤ) + vec.1 * ROAD_LANE_SIZE
  let nextOriginY : ℤ := (fromOriginY : ℤ) + vec.2 * ROAD_LANE_SIZE
  if nextOriginX < 0 ∨ nextOriginX ≥ env.gridW ∨ nextOriginY < 0 ∨ nextOriginY ≥ env.gridH then
    none
  else
    match getCell env.grid nextOriginX nextOriginY with
    | none => none
    | some nextCell =>
      if ¬ isRoadTileType nextCell.type ∨ ¬ nextCell.isOrigin then none
      else
        match nextCell.laneDirection with
        | none => none
        | some d => some ⟨nextOriginX.toNat, nextOriginY.toNat, d, nextCell.type⟩

/-- `TrafficManager.canEnterLane` — forbid only a head-on entry: entering
is refused exactly when the candidate lane's direction is the exact
opposite of the entering direction. -/
def canEnterLane (nextLane : LaneInfo) (enteringFrom : Direction) : Bool :=
  if nextLane.direction = oppositeDirection enteringFrom then false else true

/-- Squared Euclidean distance between two points; the code compares
`Math.sqrt(dx*dx+dy*dy) < r`, modelled as `distSq < r^2`. -/
def distSq (x1 y1 x2 y2 : ℚ) : ℚ :=
  (x1 - x2) ^ 2 + (y1 - y2) ^ 2

/-- The per-tick random draws of `updateSingleCar` and the spawn path,
one oracle field per `Math.random()` call site. -/
structure CarRng where
  /-- index drawn for `relocateCarToRoad` / `spawnCar` lane choice. -/
  laneIdx : ℕ
  /-- the `Math.random() < 0.4` turn-decision roll. -/
  turnRoll : ℚ
  /-- the `Math.random() < 0.5` right-vs-left order roll in `findTurnDirection`. -/
  turnOrderRoll : ℚ
  /-- the shuffled direction order used by `findAnyExit`. -/
  escapeOrder : List Direction
  /-- index drawn for the spawn car type. -/
  typeIdx : ℕ
  /-- the `(Math.random() - 0.5) * 0.01` spawn speed jitter roll. -/
  speedRoll : ℚ
  /-- the id generated for a spawned car. -/
  newId : ℕ

/-- The `RoadLane` origin cells carrying direction metadata, in the
row-major order both `spawnCar` and `relocateCarToRoad` scan them
(y outer, x inner, bounds `GRID_HEIGHT`/`GRID_WIDTH`). -/
def straightLaneOrigins (env : TrafficEnv) : List (ℕ × ℕ × Direction) :=
  (List.range env.gridH).flatMap (fun (y : ℕ) =>
    (List.range env.gridW).filterMap (fun (x : ℕ) =>
      match getCell env.grid (x : ℤ) (y : ℤ) with
      | none => none
      | some cell =>
        if cell.type = TileType.roadLane ∧ cell.isOrigin then
          match cell.laneDirection with
          | some d => some (x, y, d)
          | none => none
        else none))

/-- `TrafficManager.isLaneOccupied` — some car within distance 2.0 of the
point (for turn safety). -/
def isLaneOccupied (cars : List Car) (x y : ℚ) : Bool :=
  cars.any (fun car => distSq car.x car.y x y < 4)

/-- `TrafficManager.isBlockedByOtherCar` — another car (different id)
within distance 1.5 of the point 2.0 units ahead along the heading, whose
displacement has strictly positive dot product with the heading vector. -/
def isBlockedByOtherCar (cars : List Car) (car : Car) : Bool :=
  let vec := dirVec car.direction
  let aheadX := car.x + vec.1 * 2
  let aheadY := car.y + vec.2 * 2
  cars.any (fun other =>
    other.id ≠ car.id ∧
    distSq other.x other.y aheadX aheadY < 9 / 4 ∧
    (other.x - car.x) * vec.1 + (other.y - car.y) * vec.2 > 0)

/-- `TrafficManager.findExit` — first of {straight, right, left, back}
whose target lane exists and is legal to enter. -/
def findExit (env : TrafficEnv) (lane : LaneInfo) (currentDir : Direction) :
    Option Direction :=
  [currentDir, rightTurnDirection currentDir, leftTurnDirection currentDir,
    oppositeDirection currentDir].find? (fun dir =>
      match getNextLane env lane.originX lane.originY dir with
      | some nextLane => canEnterLane nextLane dir
      | none => false)

/-- `TrafficManager.findTurnDirection` — right/left in a random order, the
first whose target lane exists, is legal to enter, and is not occupied
near its center. -/
def findTurnDirection (env : TrafficEnv) (cars : List Car) (lane : LaneInfo)
    (currentDir : Direction) (orderRoll : ℚ) : Option Direction :=
  let turnDirections :=
    if orderRoll < 1 / 2 then
      [rightTurnDirection currentDir, leftTurnDirection currentDir]
    else
      [leftTurnDirection currentDir, rightTurnDirection currentDir]
  turnDirections.find? (fun dir =>
    match getNextLane env lane.originX lane.originY dir with
    | some nextLane =>
      canEnterLane nextLane dir &&
      (let targetCenter := getLaneCenter nextLane.originX nextLane.originY
       ! isLaneOccupied cars targetCenter.1 targetCenter.2)
    | none => false)

/-- `TrafficManager.findAnyExit` — the shuffled cardinal directions, the
first that differs from the car's heading and has an enterable,
unoccupied target lane (deadlock recovery). -/
def findAnyExit (env : TrafficEnv) (cars : List Car) (car : Car)
    (lane : LaneInfo) (order : List Direction) : Option Direction :=
  order.find? (fun dir =>
    decide (dir ≠ car.direction) &&
    match getNextLane env lane.originX lane.originY dir with
    | some nextLane =>
      canEnterLane nextLane dir &&
      (let targetCenter := getLaneCenter nextLane.originX nextLane.originY
       ! isLaneOccupied cars targetCenter.1 targetCenter.2)
    | none => false)

/-- Lines 246–268 of `TrafficManager.ts`: from a straight lane, look one
and two lane blocks ahead; if an intersection lane is found there, report
whether the light facing the heading is red or yellow. -/
def redLightAhead (env : TrafficEnv) (T : TrafficLights) (L : LaneInfo)
    (d : Direction) : Bool :=
  let nextLane := getNextLane env L.originX L.originY d
  let nextNextLane :=
    match nextLane with
    | some nl => getNextLane env nl.originX nl.originY d
    | none => none
  let intersectionAhead : Bool :=
    (match nextLane with
     | some nl => decide (nl.type = TileType.roadTurn)
     | none => false) ||
    (match nextNextLane with
     | some nnl => decide (nnl.type = TileType.roadTurn)
     | none => false)
  if intersectionAhead then
    let intersectionLane :=
      if (nextLane.map LaneInfo.type) = some TileType.roadTurn then nextLane
      else nextNextLane
    match intersectionLane with
    | some il =>
      let c := T.lights il.originX il.originY d
      decide (c = LightColor.red ∨ c = LightColor.yellow)
    | none => false
  else false

/-- `TrafficManager.relocateCarToRoad` — move an off-road car to the
center of a randomly chosen straight-lane origin block, facing the lane's
direction, with the waiting counter reset; keep the car unchanged when no
such origin exists. -/
def relocateCarToRoad (env : TrafficEnv) (car : Car) (idx : ℕ) : Car :=
  let laneOrigins := straightLaneOrigins env
  match laneOrigins.get? (idx % laneOrigins.length) with
  | none => car
  | some lane =>
    let center := getLaneCenter lane.1 lane.2.1
    { car with x := center.1, y := center.2, direction := lane.2.2, waiting := 0 }

/-- The spawnable car types, in the order of `SPAWN_CAR_TYPES`. -/
def SPAWN_CAR_TYPES : List CarType :=
  [CarType.jeep, CarType.taxi, CarType.waymo, CarType.robotaxi, CarType.zoox]

/-- `TrafficManager.spawnCar` — fail (returning the list unchanged) when
no straight-lane origin exists or a car is within distance 2.5 of the
chosen lane center; otherwise append one car at that center facing the
lane's direction. -/
def spawnCar (env : TrafficEnv) (cars : List Car) (rng : CarRng) :
    Bool × List Car :=
  let laneOrigins := straightLaneOrigins env
  match laneOrigins.get? (rng.laneIdx % laneOrigins.length) with
  | none => (false, cars)
  | some lane =>
    let center := getLaneCenter lane.1 lane.2.1
    if cars.any (fun car => distSq car.x car.y center.1 center.2 < 25 / 4) then
      (false, cars)
    else
      let carType := (SPAWN_CAR_TYPES.get? (rng.typeIdx % SPAWN_CAR_TYPES.length)).getD CarType.jeep
      (true, cars ++ [{ id := rng.newId, x := center.1, y := center.2,
                        direction := lane.2.2,
                        speed := env.carSpeed + (rng.speedRoll - 1 / 2) * (1 / 100),
                        waiting := 0, carType := carType, inIntersection := false }])

/-- `TrafficManager.clearCars`. -/
def clearCars (_cars : List Car) : List Car := []

/-- The stop-and-wait result of lines 241–242: increment the waiting
counter; keep the recorded intersection flag while inside an
intersection, clear it otherwise. -/
def blockedStop (car : Car) (inIntersection : Bool) : Car :=
  { car with waiting := car.waiting + 1,
             inIntersection := if inIntersection then car.inIntersection else false }

/-- Lines 304–321 of `TrafficManager.ts`: clear the intersection flag when
outside an intersection, then advance by one speed step in the resolved
heading, stopping in place (waiting reset) when the target position does
not resolve to a lane. -/
def carAdvance (env : TrafficEnv) (car : Car) (inIntersection : Bool)
    (newDirection : Direction) (newInIntersection0 : Bool) : Car :=
  let newInIntersection := if ¬ inIntersection then false else newInIntersection0
  let vec := dirVec newDirection
  let newX := car.x + vec.1 * car.speed
  let newY := car.y + vec.2 * car.speed
  match getLaneAt env newX newY with
  | none =>
    { car with direction := newDirection, waiting := 0, inIntersection := newInIntersection }
  | some _ =>
    { car with x := newX, y := newY, direction := newDirection, waiting := 0,
               inIntersection := newInIntersection }

/-- The guard of the traffic-light halt of `updateSingleCar` (rule 2):
the car's position resolves to a straight lane, the car is at the
decision point, a light manager is present, and `redLightAhead` reports
red or yellow at the intersection one or two lane blocks ahead. -/
def haltedAtSignal (env : TrafficEnv) (car : Car) : Bool :=
  match getLaneAt env car.x car.y with
  | none => false
  | some L =>
    let laneCenter := getLaneCenter L.originX L.originY
    decide (|car.x - laneCenter.1| < car.speed * 2 ∧
            |car.y - laneCenter.2| < car.speed * 2 ∧
            L.type = TileType.roadLane) &&
    match env.tlm with
    | some T => redLightAhead env T L car.direction
    | none => false

/-- `TrafficManager.updateSingleCar` — one tick of the per-vehicle state
machine: self-heal off-road, blocked-ahead check with deadlock escape,
signal check at a straight-lane decision point, direction decision, then
advance. -/
def updateSingleCar (env : TrafficEnv) (cars : List Car) (car : Car)
    (rng : CarRng) : Car :=
  match getLaneAt env car.x car.y with
  | none => relocateCarToRoad env car rng.laneIdx
  | some currentLane =>
    let laneCenter := getLaneCenter currentLane.originX currentLane.originY
    let atCenter := |car.x - laneCenter.1| < car.speed * 2 ∧
                    |car.y - laneCenter.2| < car.speed * 2
    let inIntersection := currentLane.type = TileType.roadTurn
    if isBlockedByOtherCar cars car then
      if car.waiting > 60 ∧ inIntersection then
        match findAnyExit env cars car currentLane rng.escapeOrder with
        | some escapeDir =>
          if escapeDir ≠ car.direction then
            { car with direction := escapeDir, waiting := 0, inIntersection := true }
          else blockedStop car inIntersection
        | none => blockedStop car inIntersection
      else blockedStop car inIntersection
    else
      -- rule 2: the guard re-resolves the same lane through the pure
      -- `getLaneAt`, so `haltedAtSignal` computes exactly the code's
      -- `atCenter && RoadLane && red-or-yellow-ahead` condition here
      if haltedAtSignal env car then
        { car with waiting := car.waiting + 1, inIntersection := false }
      else
        if atCenter then
          let nextLane := getNextLane env currentLane.originX currentLane.originY car.direction
          let canGoStraight :=
            match nextLane with
            | some nl => canEnterLane nl car.direction
            | none => false
          if ! canGoStraight then
            match findExit env currentLane car.direction with
            | some exitDir => carAdvance env car inIntersection exitDir car.inIntersection
            | none => { car with waiting := 0, inIntersection := inIntersection }
          else
            if inIntersection ∧ ¬ car.inIntersection then
              let newDirection :=
                if rng.turnRoll < 2 / 5 then
                  (findTurnDirection env cars currentLane car.direction rng.turnOrderRoll).getD
                    car.direction
                else car.direction
              carAdvance env car inIntersection newDirection true
            else carAdvance env car inIntersection car.direction car.inIntersection
        else carAdvance env car inIntersection car.direction car.inIntersection

/-- One step of the `TrafficManager.update` loop: replace the car at
index `i` with its updated value, computed against the current
(partially updated) list. -/
def carTickAt (env : TrafficEnv) (rng : ℕ → CarRng) (cars : List Car) (i : ℕ) :
    List Car :=
  match cars.get? i with
  | none => cars
  | some c => cars.set i (updateSingleCar env cars c (rng i))

/-- `TrafficManager.update` — one in-place pass over the car list. -/
def updateCars (env : TrafficEnv) (cars : List Car) (rng : ℕ → CarRng) :
    List Car :=
  (List.range cars.length).foldl (carTickAt env rng) cars

-- ============================================
-- CitizenManager
-- ============================================

/-- A pedestrian (`Character` of `types.ts`). -/
structure Character where
  id : ℕ
  x : ℚ
  y : ℚ
  direction : Direction
  speed : ℚ
  characterType : CharacterType
  inCrosswalk : Bool
deriving DecidableEq, Repr

/-- Modelled from the spec: the static slice of the external
`TrafficLightManager` consumed by `CitizenManager` — `getCrosswalkAt`
maps a continuous position to the crosswalk (identified by a number)
whose zone geometrically contains it, `canCrossAtCrosswalk` reports the
pedestrian signal of a crosswalk, and `canWalkThroughIntersection`
reports whether pedestrians may walk through an intersection tile. -/
structure PedSignals where
  zone : ℚ → ℚ → Option ℕ
  canCross : ℕ → Bool
  canWalk : ℤ → ℤ → Bool

/-- Modelled from the spec: the crosswalk registry of the signal
collaborator — each crosswalk's set of registered pedestrian ids, as an
association list from crosswalk to id set. -/
abbrev Registry := List (ℕ × List ℕ)

/-- Modelled from the spec: `removeFromAllCrosswalks(id)` — remove the id
from every crosswalk's pedestrian set. -/
def removeFromAllCrosswalks (reg : Registry) (id : ℕ) : Registry :=
  reg.map (fun e => (e.1, e.2.filter (fun i => i ≠ id)))

/-- Insert an id into one crosswalk's set (set semantics: no duplicate). -/
def registryAdd (reg : Registry) (cw id : ℕ) : Registry :=
  reg.map (fun e => if e.1 = cw ∧ ¬ id ∈ e.2 then (e.1, e.2 ++ [id]) else e)

/-- Modelled from the spec: `enterCrosswalk(id, x, y)` — add the id to the
pedestrian set of the crosswalk whose zone contains `(x, y)`, if any. -/
def enterCrosswalk (t : PedSignals) (reg : Registry) (id : ℕ) (x y : ℚ) :
    Registry :=
  match t.zone x y with
  | none => reg
  | some cw => registryAdd reg cw id

/-- The state a `CitizenManager` reads besides its own character list. -/
structure PedEnv where
  gridW : ℕ
  gridH : ℕ
  grid : Grid
  tlm : Option PedSignals

/-- The `tileType === RoadLane || tileType === RoadTurn` test the citizen
update applies to the (optional-chained) tile at integer coordinates. -/
def onRoadTileAt (env : PedEnv) (gx gy : ℤ) : Bool :=
  let t := (getCell env.grid gx gy).map GridCell.type
  decide (t = some TileType.roadLane ∨ t = some TileType.roadTurn)

/-- The same road test at a floored continuous position. -/
def onRoadAt (env : PedEnv) (x y : ℚ) : Bool :=
  onRoadTileAt env ⌊x⌋ ⌊y⌋

/-- `CitizenManager.isWalkableSurface` — sidewalk, tile or cobblestone. -/
def isWalkableSurface (t : TileType) : Bool :=
  t = TileType.sidewalk ∨ t = TileType.tile ∨ t = TileType.cobblestone

/-- `CitizenManager.isWalkable` — plain walkable surfaces always; road
turns when the signal collaborator allows walking through the
intersection; road lanes when the position lies in a crosswalk zone. -/
def isWalkable (env : PedEnv) (x y : ℚ) : Bool :=
  let gx : ℤ := ⌊x⌋
  let gy : ℤ := ⌊y⌋
  if gx < 0 ∨ gx ≥ env.gridW ∨ gy < 0 ∨ gy ≥ env.gridH then false
  else
    match getCell env.grid gx gy with
    | none => false  -- the code indexes unconditionally; in-bounds cells exist
    | some cell =>
      if isWalkableSurface cell.type then true
      else if cell.type = TileType.roadTurn then
        match env.tlm with
        | some t => t.canWalk gx gy
        | none => false
      else if cell.type = TileType.roadLane then
        match env.tlm with
        | some t => (t.zone x y).isSome
        | none => false
      else false

/-- `CitizenManager.canEnterCrosswalk` — entry into a crosswalk zone is
free when no signal collaborator or no crosswalk is present, always
allowed while already in crossing mode, and otherwise governed by the
crosswalk's pedestrian signal. -/
def canEnterCrosswalk (env : PedEnv) (x y : ℚ) (alreadyInCrossingMode : Bool) :
    Bool :=
  match env.tlm with
  | none => true
  | some t =>
    match t.zone x y with
    | none => true
    | some cw =>
      if alreadyInCrossingMode then true
      else t.canCross cw

/-- `CitizenManager.getCharacterAhead` — another character (different id)
within distance 0.4 of the target position. -/
def getCharacterAhead (chars : List Character) (char : Character)
    (targetX targetY : ℚ) : Option Character :=
  chars.find? (fun other =>
    decide (other.id ≠ char.id) &&
    decide (distSq other.x other.y targetX targetY < 4 / 25))

/-- All four directions in the iteration order of `allDirections`. -/
def allDirections : List Direction :=
  [Direction.up, Direction.down, Direction.left, Direction.right]

/-- `CitizenManager.getValidDirections` — the directions whose neighboring
tile is walkable. -/
def getValidDirections (env : PedEnv) (tileX tileY : ℤ) : List Direction :=
  allDirections.filter (fun dir =>
    let vec := dirVec dir
    isWalkable env ((tileX + vec.1 : ℤ) : ℚ) ((tileY + vec.2 : ℤ) : ℚ))

/-- `CitizenManager.findAlternateDirection` — a walkable direction other
than the blocked one and its reverse whose half-step test point is clear
of other characters. -/
def findAlternateDirection (env : PedEnv) (chars : List Character)
    (char : Character) (tileX tileY : ℤ) (blockedDir : Direction) :
    Option Direction :=
  let validDirs := getValidDirections env tileX tileY
  let opp := oppositeDirection blockedDir
  let alternatives := validDirs.filter (fun d => d ≠ blockedDir ∧ d ≠ opp)
  alternatives.find? (fun dir =>
    let vec := dirVec dir
    (getCharacterAhead chars char (char.x + vec.1 * (1 / 2))
      (char.y + vec.2 * (1 / 2))).isNone)

/-- The random draws of one pedestrian tick, one field per
`Math.random()` call site. -/
structure PedRng where
  /-- the `Math.random() < 0.6` continue-straight roll of `pickNewDirection`. -/
  pickRoll : ℚ
  /-- the index drawn among the remaining choices of `pickNewDirection`. -/
  pickIdx : ℕ
  /-- the `Math.random() < 0.1` wander roll of `handleCenterDecision`. -/
  wanderRoll : ℚ
  /-- the `Math.random() < 0.7` soft-collision roll. -/
  collisionRoll : ℚ
  /-- the tile index drawn by `relocateToWalkable`. -/
  relocIdx : ℕ
  /-- the direction index drawn by `relocateToWalkable`. -/
  relocDirIdx : ℕ

/-- `CitizenManager.pickNewDirection` — prefer non-reverse directions,
continue straight with probability 0.6 when possible, otherwise choose
among the remaining candidates. -/
def pickNewDirection (env : PedEnv) (tileX tileY : ℤ) (currentDir : Direction)
    (rng : PedRng) : Option Direction :=
  let validDirs := getValidDirections env tileX tileY
  if validDirs.length = 0 then none
  else
    let opp := oppositeDirection currentDir
    let preferredDirs := validDirs.filter (fun d => d ≠ opp)
    if preferredDirs.contains currentDir ∧ rng.pickRoll < 3 / 5 then
      some currentDir
    else
      let choices := if preferredDirs.length > 0 then preferredDirs else validDirs
      choices.get? (rng.pickIdx % choices.length)

/-- The result record of `handleCenterDecision`. -/
structure CDResult where
  direction : Direction
  wait : Bool
  snapToCenter : Bool
  inCrosswalk : Bool
deriving DecidableEq, Repr

/-- `CitizenManager.handleCenterDecision` — evaluate the next tile ahead:
wait at the center on a signal denial or while crossing, search a new
direction on other denials, and occasionally wander at open junctions. -/
def handleCenterDecision (env : PedEnv) (char : Character) (tileX tileY : ℤ)
    (wasInCrossingMode nowInCrossingMode : Bool) (rng : PedRng) : CDResult :=
  let direction := char.direction
  let vec := dirVec direction
  let nextTileX := tileX + vec.1
  let nextTileY := tileY + vec.2
  let nextIsRoad : Bool := onRoadTileAt env nextTileX nextTileY
  let nextWalkable :=
    isWalkable env (nextTileX : ℚ) (nextTileY : ℚ) || (wasInCrossingMode && nextIsRoad)
  let canEnterNext :=
    canEnterCrosswalk env ((nextTileX : ℚ) + 1 / 2) ((nextTileY : ℚ) + 1 / 2)
      wasInCrossingMode
  if !nextWalkable || !canEnterNext then
    if !canEnterNext && nextWalkable then
      ⟨direction, true, true, nowInCrossingMode⟩
    else if nowInCrossingMode then
      ⟨direction, true, true, true⟩
    else
      ⟨(pickNewDirection env tileX tileY direction rng).getD direction,
        false, true, nowInCrossingMode⟩
  else
    if !nowInCrossingMode &&
        decide ((getValidDirections env tileX tileY).length > 2) &&
        decide (rng.wanderRoll < 1 / 10) then
      match pickNewDirection env tileX tileY direction rng with
      | some newDir => ⟨newDir, false, true, false⟩
      | none => ⟨direction, false, false, nowInCrossingMode⟩
    else ⟨direction, false, false, nowInCrossingMode⟩

/-- The plain walkable-surface tiles, in the row-major order
`relocateToWalkable` and `spawnCharacter` scan them. -/
def walkableSurfaceTiles (env : PedEnv) : List (ℕ × ℕ) :=
  (List.range env.gridH).flatMap (fun (gy : ℕ) =>
    (List.range env.gridW).filterMap (fun (gx : ℕ) =>
      match getCell env.grid (gx : ℤ) (gy : ℤ) with
      | none => none
      | some tile => if isWalkableSurface tile.type then some (gx, gy) else none))

/-- `CitizenManager.relocateToWalkable` — deregister from every crosswalk
and move to the center of a random plain walkable tile with a random
direction and the crossing flag cleared; keep the position when no
walkable tile exists. -/
def relocateToWalkable (env : PedEnv) (reg : Registry) (char : Character)
    (rng : PedRng) : Character × Registry :=
  let reg' :=
    match env.tlm with
    | none => reg
    | some _ => removeFromAllCrosswalks reg char.id
  let tiles := walkableSurfaceTiles env
  match tiles.get? (rng.relocIdx % tiles.length) with
  | some t =>
    ({ char with x := (t.1 : ℚ) + 1 / 2, y := (t.2 : ℚ) + 1 / 2,
                 direction := (allDirections.get? (rng.relocDirIdx % 4)).getD Direction.up,
                 inCrosswalk := false }, reg')
  | none => ({ char with inCrosswalk := false }, reg')

/-- `CitizenManager.updateCrosswalkRegistration` — on a road tile, refresh
the registration to the crosswalk containing the current position (or
clear all registrations inside the intersection body); clear all
registrations when crossing mode was just left. -/
def updateCrosswalkRegistration (env : PedEnv) (reg : Registry) (charId : ℕ)
    (x y : ℚ) (wasInCrossingMode onRoadTile : Bool) : Registry :=
  match env.tlm with
  | none => reg
  | some t =>
    let reg1 :=
      if onRoadTile then
        match t.zone x y with
        | some _ => enterCrosswalk t (removeFromAllCrosswalks reg charId) charId x y
        | none => removeFromAllCrosswalks reg charId
      else reg
    if wasInCrossingMode && !onRoadTile then removeFromAllCrosswalks reg1 charId
    else reg1

/-- Lines 229–242 of `CitizenManager.ts`: final validation — snap back to
the pre-decision tile center (recording the new heading) when the landing
tile is unwalkable or crosswalk entry is denied, otherwise commit the new
position and recompute the crossing flag from the landing tile. -/
def pedFinish (env : PedEnv) (char : Character)
    (wasInCrossingMode nowInCrossingMode : Bool) (newDirection : Direction)
    (nextX nextY : ℚ) (tileX tileY : ℤ) : Character :=
  let finalTileX : ℤ := ⌊nextX⌋
  let finalTileY : ℤ := ⌊nextY⌋
  let finalIsRoad := onRoadAt env nextX nextY
  let finalWalkable :=
    isWalkable env (finalTileX : ℚ) (finalTileY : ℚ) || (wasInCrossingMode && finalIsRoad)
  let canEnterFinal := canEnterCrosswalk env nextX nextY wasInCrossingMode
  if !finalWalkable || !canEnterFinal then
    { char with x := (tileX : ℚ) + 1 / 2, y := (tileY : ℚ) + 1 / 2,
                direction := newDirection, inCrosswalk := nowInCrossingMode }
  else
    { char with x := nextX, y := nextY, direction := newDirection,
                inCrosswalk := finalIsRoad }

/-- Lines 203–242 of `CitizenManager.ts`: apply the movement for the
resolved heading from the base position, soft-avoid nearby characters
while not crossing, then run the final validation. -/
def pedMove2 (env : PedEnv) (chars : List Character) (char : Character)
    (rng : PedRng) (tileX tileY : ℤ) (wasInCrossingMode nowInCrossingMode : Bool)
    (newDirection : Direction) (baseX baseY : ℚ) : Character :=
  let moveVec := dirVec newDirection
  let nextX := baseX + moveVec.1 * char.speed
  let nextY := baseY + moveVec.2 * char.speed
  if (getCharacterAhead chars char nextX nextY).isSome &&
      (!nowInCrossingMode && decide (rng.collisionRoll < 7 / 10)) then
    match findAlternateDirection env chars char tileX tileY newDirection with
    | some altDir =>
      let altVec := dirVec altDir
      pedFinish env char wasInCrossingMode nowInCrossingMode altDir
        (char.x + altVec.1 * char.speed) (char.y + altVec.2 * char.speed) tileX tileY
    | none => { char with direction := newDirection, inCrosswalk := nowInCrossingMode }
  else
    pedFinish env char wasInCrossingMode nowInCrossingMode newDirection nextX nextY
      tileX tileY

/-- Lines 181–242 of `CitizenManager.ts`: the movement part of a
pedestrian tick (everything after the walkability gate; the registry is
not touched past that point). -/
def pedMove (env : PedEnv) (chars : List Character) (char : Character)
    (rng : PedRng) : Character :=
  let x := char.x
  let y := char.y
  let tileX : ℤ := ⌊x⌋
  let tileY : ℤ := ⌊y⌋
  let wasInCrossingMode := char.inCrosswalk
  let nowInCrossingMode := onRoadAt env x y
  let threshold := char.speed * 3
  let nearCenter := |x - tileX - 1 / 2| < threshold ∧ |y - tileY - 1 / 2| < threshold
  if nearCenter then
    let r := handleCenterDecision env char tileX tileY wasInCrossingMode
      nowInCrossingMode rng
    if r.wait then
      { char with x := (tileX : ℚ) + 1 / 2, y := (tileY : ℚ) + 1 / 2,
                  inCrosswalk := r.inCrosswalk }
    else
      pedMove2 env chars char rng tileX tileY wasInCrossingMode nowInCrossingMode
        r.direction (if r.snapToCenter then (tileX : ℚ) + 1 / 2 else x)
        (if r.snapToCenter then (tileY : ℚ) + 1 / 2 else y)
  else
    pedMove2 env chars char rng tileX tileY wasInCrossingMode nowInCrossingMode
      char.direction x y

/-- `CitizenManager.updateSingleCharacter` — one pedestrian tick:
crosswalk-registry maintenance at the current position, the walkability
gate (relocating when the pedestrian may not stay), then movement. -/
def updateSingleCharacter (env : PedEnv) (chars : List Character)
    (reg : Registry) (char : Character) (rng : PedRng) : Character × Registry :=
  let x := char.x
  let y := char.y
  let tileX : ℤ := ⌊x⌋
  let tileY : ℤ := ⌊y⌋
  let wasInCrossingMode := char.inCrosswalk
  let onRoadTile := onRoadAt env x y
  let reg1 := updateCrosswalkRegistration env reg char.id x y wasInCrossingMode
    onRoadTile
  let currentlyWalkable := isWalkable env (tileX : ℚ) (tileY : ℚ)
  let canStayHere := currentlyWalkable || (wasInCrossingMode && onRoadTile)
  if !canStayHere then relocateToWalkable env reg1 char rng
  else (pedMove env chars char rng, reg1)

/-- One step of the `CitizenManager.update` loop. -/
def pedTickAt (env : PedEnv) (rng : ℕ → PedRng)
    (st : List Character × Registry) (i : ℕ) : List Character × Registry :=
  match st.1.get? i with
  | none => st
  | some c =>
    let (c', reg') := updateSingleCharacter env st.1 st.2 c (rng i)
    (st.1.set i c', reg')

/-- `CitizenManager.update` — one in-place pass over the character list,
threading the crosswalk registry. -/
def updatePeds (env : PedEnv) (chars : List Character) (reg : Registry)
    (rng : ℕ → PedRng) : List Character × Registry :=
  (List.range chars.length).foldl (pedTickAt env rng) (chars, reg)

/-- `CitizenManager.clearCharacters` — deregister every character from all
crosswalks (when a signal collaborator is present), then clear the list. -/
def clearCharacters (env : PedEnv) (chars : List Character) (reg : Registry) :
    List Character × Registry :=
  ([],
    match env.tlm with
    | none => reg
    | some _ => chars.foldl (fun r c => removeFromAllCrosswalks r c.id) reg)

-- ============================================
-- Concrete scenarios
-- ============================================

/-- A `RoadLane` origin cell of the block at (0,0), direction right. -/
def laneO : GridCell := ⟨TileType.roadLane, true, some 0, some 0, some Direction.right⟩

/-- A non-origin cell of the `RoadLane` block at (0,0). -/
def laneN : GridCell := ⟨TileType.roadLane, false, some 0, some 0, none⟩

/-- A `RoadTurn` origin cell of the block at (2,0), direction right. -/
def turnO : GridCell := ⟨TileType.roadTurn, true, some 2, some 0, some Direction.right⟩

/-- A non-origin cell of the `RoadTurn` block at (2,0). -/
def turnN : GridCell := ⟨TileType.roadTurn, false, some 2, some 0, none⟩

/-- A 4×2 grid: one straight-lane block at (0,0) followed by an
intersection block at (2,0). -/
def gridR : Grid := [[laneO, laneN, turnO, turnN], [laneN, laneN, turnN, turnN]]

/-- The grid `gridR` with a light manager reporting red everywhere. -/
def envR : TrafficEnv := ⟨4, 2, gridR, some ⟨fun _ _ _ => LightColor.red⟩, 1 / 20⟩

/-- A car at the center (1,1) of the straight-lane block of `gridR`,
heading right towards the intersection, with its inside-intersection flag
still set from a previous traversal. -/
def carR : Car := ⟨1, 1, 1, Direction.right, 1 / 20, 3, CarType.jeep, true⟩

/-- An arbitrary fixed random oracle for car ticks. -/
def rngA : CarRng := ⟨0, 0, 0, [], 0, 0, 0⟩

/-- The grid `gridR` with a light manager reporting green everywhere. -/
def envG : TrafficEnv := ⟨4, 2, gridR, some ⟨fun _ _ _ => LightColor.green⟩, 1 / 20⟩

/-- A car at the lane center of `gridR` free to advance under green. -/
def carG : Car := ⟨3, 1, 1, Direction.right, 1 / 20, 5, CarType.jeep, false⟩

/-- A car below the road rows of `gridR` (off every lane). -/
def carO : Car := ⟨4, 1 / 2, 5 / 2, Direction.up, 1 / 20, 2, CarType.zoox, false⟩

/-- A plain grass cell. -/
def grassC : GridCell := ⟨TileType.grass, false, none, none, none⟩

/-- A 1×1 all-grass grid: no road lane anywhere. -/
def envE : TrafficEnv := ⟨1, 1, [[grassC]], none, 1 / 20⟩

/-- A car standing on the grass tile of `envE` (off any lane). -/
def carE : Car := ⟨2, 1 / 2, 1 / 2, Direction.up, 1 / 20, 0, CarType.taxi, false⟩

/-- A sidewalk cell. -/
def sideC : GridCell := ⟨TileType.sidewalk, false, none, none, none⟩

/-- A 1×2 grid for the pedestrian scenarios: a road-lane tile at (0,0)
above a sidewalk tile at (0,1). -/
def gridP : Grid := [[laneO], [sideC]]

/-- A signal collaborator whose single crosswalk 0 covers exactly the
road tile (0,0), with the pedestrian signal green and intersection
walk-through allowed. -/
def sigP : PedSignals :=
  ⟨fun x y => if ⌊x⌋ = 0 ∧ ⌊y⌋ = 0 then some 0 else none,
   fun _ => true, fun _ _ => true⟩

/-- The pedestrian environment over `gridP` and `sigP`. -/
def envP : PedEnv := ⟨1, 2, gridP, some sigP⟩

/-- A pedestrian in crossing mode near the lower edge of the crosswalk
tile, one step away from reaching the sidewalk. -/
def pedP : Character := ⟨7, 1 / 2, 9 / 10, Direction.down, 1 / 10, CharacterType.banana, true⟩

/-- A pedestrian in crossing mode in the interior of the crosswalk tile. -/
def pedW : Character := ⟨8, 1 / 2, 3 / 10, Direction.down, 1 / 10, CharacterType.banana, true⟩

/-- An arbitrary fixed random oracle for pedestrian ticks. -/
def rngP : PedRng := ⟨0, 0, 1, 1, 0, 0⟩

end Pogicity

namespace Pogicity

/-- C1: `canEnterLane` returns `false` exactly for head-on entries
(candidate lane direction = exact opposite of the entering direction) and
`true` for every other combination, whatever the lane's origin and tile
kind. -/
theorem canEnterLane_false_iff_opposite (L : LaneInfo) (d : Direction) :
    canEnterLane L d = false ↔ L.direction = oppositeDirection d := by
  cases L with
  | mk ox oy ld t =>
    cases ld <;> cases d <;> simp [canEnterLane, oppositeDirection]

/-- Any displacement landing within distance 1.5 of the point two units
ahead has a strictly positive projection onto the (unit) heading vector:
its along-heading component lies in (0.5, 3.5). -/
theorem dot_pos_of_close (d : Direction) (ux uy : ℚ)
    (h : (ux - 2 * (dirVec d).1) ^ 2 + (uy - 2 * (dirVec d).2) ^ 2 < 9 / 4) :
    0 < ux * (dirVec d).1 + uy * (dirVec d).2 := by
  cases d <;> simp [dirVec] at h ⊢ <;> nlinarith [sq_nonneg ux, sq_nonneg uy]

/-- C6: the blocked-ahead check holds exactly when some other vehicle
(different id) lies within the 1.5 proximity radius of the point 2 units
ahead along the heading and its displacement from the vehicle has
non-negative projection onto the heading vector (projection zero counts
as ahead; geometrically such a vehicle always has projection above 0.5,
so the code's strict test agrees). -/
theorem isBlockedByOtherCar_iff (cars : List Car) (car : Car) :
    isBlockedByOtherCar cars car = true ↔
      ∃ other ∈ cars, other.id ≠ car.id ∧
        distSq other.x other.y (car.x + (dirVec car.direction).1 * 2)
          (car.y + (dirVec car.direction).2 * 2) < 9 / 4 ∧
        0 ≤ (other.x - car.x) * (dirVec car.direction).1 +
            (other.y - car.y) * (dirVec car.direction).2 := by
  simp only [isBlockedByOtherCar, List.any_eq_true, decide_eq_true_eq]
  constructor
  · rintro ⟨o, ho, h1, h2, h3⟩
    exact ⟨o, ho, h1, h2, le_of_lt h3⟩
  · rintro ⟨o, ho, h1, h2, h3⟩
    refine ⟨o, ho, h1, h2, ?_⟩
    refine dot_pos_of_close car.direction (o.x - car.x) (o.y - car.y) ?_
    simp only [distSq] at h2
    nlinarith [h2]

-- ============================================
-- Frame lemmas: a tick never touches id, speed or type
-- ============================================

theorem relocateCarToRoad_frame (env : TrafficEnv) (car : Car) (idx : ℕ) :
    (relocateCarToRoad env car idx).id = car.id ∧
    (relocateCarToRoad env car idx).speed = car.speed ∧
    (relocateCarToRoad env car idx).carType = car.carType := by
  unfold relocateCarToRoad
  dsimp only
  split <;> simp

theorem blockedStop_frame (car : Car) (b : Bool) :
    (blockedStop car b).id = car.id ∧
    (blockedStop car b).speed = car.speed ∧
    (blockedStop car b).carType = car.carType := by
  unfold blockedStop
  simp

theorem carAdvance_frame (env : TrafficEnv) (car : Car) (b : Bool)
    (d : Direction) (b0 : Bool) :
    (carAdvance env car b d b0).id = car.id ∧
    (carAdvance env car b d b0).speed = car.speed ∧
    (carAdvance env car b d b0).carType = car.carType := by
  unfold carAdvance
  dsimp only
  split <;> simp

theorem updateSingleCar_frame (env : TrafficEnv) (cars : List Car) (car : Car)
    (rng : CarRng) :
    (updateSingleCar env cars car rng).id = car.id ∧
    (updateSingleCar env cars car rng).speed = car.speed ∧
    (updateSingleCar env cars car rng).carType = car.carType := by
  unfold updateSingleCar
  dsimp only
  split
  · exact relocateCarToRoad_frame env car rng.laneIdx
  · (repeat' split) <;>
      first
        | exact blockedStop_frame car _
        | exact carAdvance_frame env car _ _ _
        | simp

theorem pedFinish_frame (env : PedEnv) (char : Character) (w n : Bool)
    (d : Direction) (nx ny : ℚ) (tx ty : ℤ) :
    (pedFinish env char w n d nx ny tx ty).id = char.id ∧
    (pedFinish env char w n d nx ny tx ty).speed = char.speed ∧
    (pedFinish env char w n d nx ny tx ty).characterType = char.characterType := by
  unfold pedFinish
  dsimp only
  split <;> simp

theorem pedMove2_frame (env : PedEnv) (chars : List Character) (char : Character)
    (rng : PedRng) (tx ty : ℤ) (w n : Bool) (d : Direction) (bx bY : ℚ) :
    (pedMove2 env chars char rng tx ty w n d bx bY).id = char.id ∧
    (pedMove2 env chars char rng tx ty w n d bx bY).speed = char.speed ∧
    (pedMove2 env chars char rng tx ty w n d bx bY).characterType = char.characterType := by
  unfold pedMove2
  dsimp only
  (repeat' split) <;>
    first
      | exact pedFinish_frame env char _ _ _ _ _ _ _
      | simp

theorem pedMove_frame (env : PedEnv) (chars : List Character) (char : Character)
    (rng : PedRng) :
    (pedMove env chars char rng).id = char.id ∧
    (pedMove env chars char rng).speed = char.speed ∧
    (pedMove env chars char rng).characterType = char.characterType := by
  unfold pedMove
  dsimp only
  (repeat' split) <;>
    first
      | exact pedMove2_frame env chars char rng _ _ _ _ _ _ _
      | simp

theorem relocateToWalkable_frame (env : PedEnv) (reg : Registry)
    (char : Character) (rng : PedRng) :
    (relocateToWalkable env reg char rng).1.id = char.id ∧
    (relocateToWalkable env reg char rng).1.speed = char.speed ∧
    (relocateToWalkable env reg char rng).1.characterType = char.characterType := by
  unfold relocateToWalkable
  dsimp only
  (repeat' split) <;> simp

theorem updateSingleCharacter_frame (env : PedEnv) (chars : List Character)
    (reg : Registry) (char : Character) (rng : PedRng) :
    (updateSingleCharacter env chars reg char rng).1.id = char.id ∧
    (updateSingleCharacter env chars reg char rng).1.speed = char.speed ∧
    (updateSingleCharacter env chars reg char rng).1.characterType = char.characterType := by
  unfold updateSingleCharacter
  dsimp only
  split
  · exact relocateToWalkable_frame env _ char rng
  · exact pedMove_frame env chars char rng

/-- The per-index frame relation an update pass preserves on the car
list, relative to the list it started from. -/
def carListFrame (cars acc : List Car) : Prop :=
  acc.length = cars.length ∧
  ∀ i, ((acc.get? i).map Car.id = (cars.get? i).map Car.id) ∧
       ((acc.get? i).map Car.speed = (cars.get? i).map Car.speed) ∧
       ((acc.get? i).map Car.carType = (cars.get? i).map Car.carType)

theorem carTickAt_frame (env : TrafficEnv) (rng : ℕ → CarRng)
    (cars acc : List Car) (n : ℕ) (h : carListFrame cars acc) :
    carListFrame cars (carTickAt env rng acc n) := by
  unfold carTickAt
  cases hc : acc.get? n with
  | none => exact h
  | some c =>
    dsimp only
    refine ⟨by rw [List.length_set]; exact h.1, fun i => ?_⟩
    have hset := List.get?_set (updateSingleCar env acc c (rng n)) (m := n) (n := i) (l := acc)
    by_cases hni : n = i
    · subst hni
      rw [hset, if_pos rfl, hc]
      have hf := updateSingleCar_frame env acc c (rng n)
      have h2 := h.2 n
      rw [hc] at h2
      simp only [Option.map_some', List.get?_eq_getElem?] at h2
      refine ⟨?_, ?_, ?_⟩ <;>
        simp [Option.map_eq_map, List.get?_eq_getElem?, hf.1, hf.2.1, hf.2.2,
          ← h2.1, ← h2.2.1, ← h2.2.2]
    · rw [hset, if_neg hni]
      exact h.2 i

/-- The analogous frame relation for the pedestrian pass (the registry
component is unconstrained). -/
def pedListFrame (chars : List Character) (st : List Character × Registry) : Prop :=
  st.1.length = chars.length ∧
  ∀ i, ((st.1.get? i).map Character.id = (chars.get? i).map Character.id) ∧
       ((st.1.get? i).map Character.speed = (chars.get? i).map Character.speed) ∧
       ((st.1.get? i).map Character.characterType = (chars.get? i).map Character.characterType)

theorem pedTickAt_frame (env : PedEnv) (rng : ℕ → PedRng)
    (chars : List Character) (st : List Character × Registry) (n : ℕ)
    (h : pedListFrame chars st) :
    pedListFrame chars (pedTickAt env rng st n) := by
  unfold pedTickAt
  cases hc : st.1.get? n with
  | none => exact h
  | some c =>
    dsimp only
    refine ⟨by rw [List.length_set]; exact h.1, fun i => ?_⟩
    have hset := List.get?_set (updateSingleCharacter env st.1 st.2 c (rng n)).1
      (m := n) (n := i) (l := st.1)
    by_cases hni : n = i
    · subst hni
      rw [hset, if_pos rfl, hc]
      have hf := updateSingleCharacter_frame env st.1 st.2 c (rng n)
      have h2 := h.2 n
      rw [hc] at h2
      simp only [Option.map_some', List.get?_eq_getElem?] at h2
      refine ⟨?_, ?_, ?_⟩ <;>
        simp [Option.map_eq_map, List.get?_eq_getElem?, hf.1, hf.2.1, hf.2.2,
          ← h2.1, ← h2.2.1, ← h2.2.2]
    · rw [hset, if_neg hni]
      exact h.2 i

theorem foldl_preserves {α β : Type} (P : α → Prop) (step : α → β → α)
    (hstep : ∀ a b, P a → P (step a b)) :
    ∀ (l : List β) (a : α), P a → P (l.foldl step a) := by
  intro l
  induction l with
  | nil => intro a h; exact h
  | cons x xs ih => intro a h; exact ih _ (hstep _ _ h)

/-- C10: one `update()` pass of either manager leaves the agent count
unchanged and, at every index, preserves the agent's id, scalar speed and
type tag; only position, direction, waiting counter and the intersection
/ crossing flag may change (those are the only other fields). -/
theorem update_frame (tenv : TrafficEnv) (cars : List Car) (crng : ℕ → CarRng)
    (penv : PedEnv) (chars : List Character) (reg : Registry) (prng : ℕ → PedRng) :
    ((updateCars tenv cars crng).length = cars.length ∧
     ∀ i, (((updateCars tenv cars crng).get? i).map Car.id = (cars.get? i).map Car.id) ∧
          (((updateCars tenv cars crng).get? i).map Car.speed = (cars.get? i).map Car.speed) ∧
          (((updateCars tenv cars crng).get? i).map Car.carType = (cars.get? i).map Car.carType)) ∧
    ((updatePeds penv chars reg prng).1.length = chars.length ∧
     ∀ i, (((updatePeds penv chars reg prng).1.get? i).map Character.id = (chars.get? i).map Character.id) ∧
          (((updatePeds penv chars reg prng).1.get? i).map Character.speed = (chars.get? i).map Character.speed) ∧
          (((updatePeds penv chars reg prng).1.get? i).map Character.characterType = (chars.get? i).map Character.characterType)) := by
  constructor
  · exact foldl_preserves (carListFrame cars) (carTickAt tenv crng)
      (fun a b h => carTickAt_frame tenv crng cars a b h)
      (List.range cars.length) cars ⟨rfl, fun i => ⟨rfl, rfl, rfl⟩⟩
  · exact foldl_preserves (pedListFrame chars) (pedTickAt penv prng)
      (fun a b h => pedTickAt_frame penv prng chars a b h)
      (List.range chars.length) (chars, reg) ⟨rfl, fun i => ⟨rfl, rfl, rfl⟩⟩

-- ============================================
-- The pedestrian crossing flag (C2)
-- ============================================

theorem floor_intCast_add_half (n : ℤ) : ⌊(n : ℚ) + 1 / 2⌋ = n := by
  rw [show ((n : ℚ) + 1 / 2) = (1 / 2 : ℚ) + n by ring, Int.floor_add_int]
  norm_num

theorem onRoadAt_intCenter (env : PedEnv) (tx ty : ℤ) :
    onRoadAt env ((tx : ℚ) + 1 / 2) ((ty : ℚ) + 1 / 2) = onRoadTileAt env tx ty := by
  unfold onRoadAt
  rw [floor_intCast_add_half, floor_intCast_add_half]

theorem onRoadAt_natCenter (env : PedEnv) (tx ty : ℕ) :
    onRoadAt env ((tx : ℚ) + 1 / 2) ((ty : ℚ) + 1 / 2) = onRoadTileAt env tx ty := by
  rw [show ((tx : ℚ)) = (((tx : ℤ)) : ℚ) by push_cast; ring,
      show ((ty : ℚ)) = (((ty : ℤ)) : ℚ) by push_cast; ring]
  exact onRoadAt_intCenter env tx ty

/-- Every wait-result of the center decision carries the current
crossing-mode value in its `inCrosswalk` field. -/
theorem handleCenterDecision_wait (env : PedEnv) (char : Character)
    (tX tY : ℤ) (w n : Bool) (rng : PedRng)
    (h : (handleCenterDecision env char tX tY w n rng).wait = true) :
    (handleCenterDecision env char tX tY w n rng).inCrosswalk = n := by
  unfold handleCenterDecision at h ⊢
  dsimp only at h ⊢
  (repeat' split at h) <;> (repeat' split) <;> simp_all

theorem pedFinish_flag (env : PedEnv) (char : Character) (w n : Bool)
    (d : Direction) (nx ny : ℚ) (tX tY : ℤ)
    (h : n = onRoadTileAt env tX tY) :
    (pedFinish env char w n d nx ny tX tY).inCrosswalk =
      onRoadAt env (pedFinish env char w n d nx ny tX tY).x
        (pedFinish env char w n d nx ny tX tY).y := by
  unfold pedFinish
  dsimp only
  split
  · simp only
    rw [onRoadAt_intCenter]
    exact h
  · rfl

theorem pedMove2_flag (env : PedEnv) (chars : List Character) (char : Character)
    (rng : PedRng) (tX tY : ℤ) (w n : Bool) (d : Direction) (bx bY : ℚ)
    (h : n = onRoadTileAt env tX tY)
    (hx : tX = ⌊char.x⌋) (hy : tY = ⌊char.y⌋) :
    (pedMove2 env chars char rng tX tY w n d bx bY).inCrosswalk =
      onRoadAt env (pedMove2 env chars char rng tX tY w n d bx bY).x
        (pedMove2 env chars char rng tX tY w n d bx bY).y := by
  unfold pedMove2
  dsimp only
  split
  · split
    · exact pedFinish_flag env char w n _ _ _ tX tY h
    · simp only
      show n = onRoadAt env char.x char.y
      rw [h, hx, hy]
      rfl
  · exact pedFinish_flag env char w n _ _ _ tX tY h

/-- After the movement part of a pedestrian tick the crossing flag always
equals the road test at the landing position. -/
theorem pedMove_flag (env : PedEnv) (chars : List Character) (char : Character)
    (rng : PedRng) :
    (pedMove env chars char rng).inCrosswalk =
      onRoadAt env (pedMove env chars char rng).x (pedMove env chars char rng).y := by
  unfold pedMove
  dsimp only
  split
  · split
    · rename_i hwait
      have hw := handleCenterDecision_wait env char ⌊char.x⌋ ⌊char.y⌋
        char.inCrosswalk (onRoadAt env char.x char.y) rng hwait
      simp only
      rw [hw, onRoadAt_intCenter]
      rfl
    · exact pedMove2_flag env chars char rng _ _ _ _ _ _ _ rfl rfl rfl
  · exact pedMove2_flag env chars char rng _ _ _ _ _ _ _ rfl rfl rfl

/-- Tiles produced by the relocation scan are plain walkable surfaces, in
particular not road tiles. -/
theorem walkableSurfaceTiles_not_road (env : PedEnv) (t : ℕ × ℕ)
    (ht : t ∈ walkableSurfaceTiles env) :
    onRoadTileAt env t.1 t.2 = false := by
  unfold walkableSurfaceTiles at ht
  simp only [List.mem_flatMap, List.mem_filterMap, List.mem_range] at ht
  obtain ⟨gy, hgy, gx, hgx, hcell⟩ := ht
  revert hcell
  cases hc : getCell env.grid (gx : ℤ) (gy : ℤ) with
  | none => simp
  | some cell =>
    dsimp only
    split
    · intro he
      injection he with he'
      subst he'
      unfold onRoadTileAt
      rw [hc]
      rename_i hw
      rcases cell with ⟨ty, o, ox, oy, ld⟩
      revert hw
      cases ty <;> simp [isWalkableSurface]
    · intro he; cases he

/-- C2: a pedestrian in crossing mode stays in crossing mode exactly as
long as it remains on road tiles — after its tick the flag equals the
road test at its post-tick floored position, so no branch (waiting,
snapping back, soft collision, or relocation) clears the flag while the
pedestrian still occupies a road tile, and the flag clears on the tick
whose landing tile is not a road tile. -/
theorem crossing_flag_matches_road (env : PedEnv) (chars : List Character)
    (reg : Registry) (char : Character) (rng : PedRng)
    (h : char.inCrosswalk = true) :
    ((updateSingleCharacter env chars reg char rng).1).inCrosswalk =
      onRoadAt env ((updateSingleCharacter env chars reg char rng).1).x
        ((updateSingleCharacter env chars reg char rng).1).y := by
  unfold updateSingleCharacter
  dsimp only
  split
  · rename_i hstay
    have hroad : onRoadAt env char.x char.y = false := by
      simp [h] at hstay
      exact hstay.2
    unfold relocateToWalkable
    dsimp only
    split
    · rename_i t hts
      simp only
      rw [onRoadAt_natCenter]
      exact (walkableSurfaceTiles_not_road env t (List.get?_mem hts)).symm
    · simp only
      exact hroad.symm
  · exact pedMove_flag env chars char rng

/-- Witness for C2 at a concrete crossing pedestrian. -/
theorem crossing_flag_matches_road_witness :
    pedW.inCrosswalk = true ∧
    ((updateSingleCharacter envP [pedW] ([(0, [])] : Registry) pedW rngP).1).inCrosswalk =
      onRoadAt envP ((updateSingleCharacter envP [pedW] ([(0, [])] : Registry) pedW rngP).1).x
        ((updateSingleCharacter envP [pedW] ([(0, [])] : Registry) pedW rngP).1).y :=
  ⟨rfl, crossing_flag_matches_road envP [pedW] ([(0, [])] : Registry) pedW rngP rfl⟩

/-- C3: the registration step runs on the pre-move position, and the
cleanup branch for leaving the road requires the crossing flag to still
be set at the start of a tick.  The tick that carries `pedP` off the
crosswalk tile (0,0) onto the sidewalk therefore leaves its id registered
in crosswalk 0 — a stale "ghost" occupancy the following tick does not
clear either, contradicting the code's own comment that old registrations
are cleared to prevent ghost pedestrians in passed crosswalks. -/
theorem crosswalk_ghost_after_exit :
    ((updateSingleCharacter envP [pedP] ([(0, [])] : Registry) pedP rngP).1.inCrosswalk = false) ∧
    (onRoadAt envP ((updateSingleCharacter envP [pedP] ([(0, [])] : Registry) pedP rngP).1).x
      ((updateSingleCharacter envP [pedP] ([(0, [])] : Registry) pedP rngP).1).y = false) ∧
    (sigP.zone ((updateSingleCharacter envP [pedP] ([(0, [])] : Registry) pedP rngP).1).x
      ((updateSingleCharacter envP [pedP] ([(0, [])] : Registry) pedP rngP).1).y = none) ∧
    ((updateSingleCharacter envP [pedP] ([(0, [])] : Registry) pedP rngP).2 = [(0, [7])]) ∧
    ((updateSingleCharacter envP
        [(updateSingleCharacter envP [pedP] ([(0, [])] : Registry) pedP rngP).1]
        ((updateSingleCharacter envP [pedP] ([(0, [])] : Registry) pedP rngP).2)
        ((updateSingleCharacter envP [pedP] ([(0, [])] : Registry) pedP rngP).1) rngP).2
      = [(0, [7])]) := by
  with_unfolding_all decide

-- ============================================
-- Waiting counter and signal halt (C4, C5)
-- ============================================

theorem carAdvance_waiting (env : TrafficEnv) (car : Car) (b : Bool)
    (d : Direction) (b0 : Bool) : (carAdvance env car b d b0).waiting = 0 := by
  unfold carAdvance
  dsimp only
  split <;> rfl

/-- C4 counterexample: a lone car (so the blocked-ahead check is false)
halted at a red light has its waiting counter strictly increased by the
tick without any vehicle in its lookahead zone, refuting "only increases
while blocked by another vehicle". -/
theorem waiting_increases_without_blocker :
    isBlockedByOtherCar [carR] carR = false ∧
    (updateSingleCar envR [carR] carR rngA).waiting = carR.waiting + 1 ∧
    (updateSingleCar envR [carR] carR rngA).x = carR.x ∧
    (updateSingleCar envR [carR] carR rngA).y = carR.y := by
  with_unfolding_all decide

/-- C4 amended: a tick that changes the vehicle's position leaves the
waiting counter at zero, and the waiting counter strictly increases only
when the vehicle is blocked by another vehicle in its lookahead zone or
halted at a red/yellow signal (and then by exactly one). -/
theorem waiting_reset_on_move (env : TrafficEnv) (cars : List Car) (car : Car)
    (rng : CarRng) :
    (((updateSingleCar env cars car rng).x ≠ car.x ∨
      (updateSingleCar env cars car rng).y ≠ car.y) →
        (updateSingleCar env cars car rng).waiting = 0) ∧
    (car.waiting < (updateSingleCar env cars car rng).waiting →
      (updateSingleCar env cars car rng).waiting = car.waiting + 1 ∧
      (isBlockedByOtherCar cars car = true ∨ haltedAtSignal env car = true)) := by
  unfold updateSingleCar
  dsimp only
  split
  · unfold relocateCarToRoad
    dsimp only
    split <;> simp
  · rename_i L hL
    split
    · rename_i hblk
      split
      · split
        · split
          · simp
          · refine ⟨fun h => by rcases h with h | h <;> simp [blockedStop] at h,
              fun _ => ⟨by simp [blockedStop], Or.inl hblk⟩⟩
        · refine ⟨fun h => by rcases h with h | h <;> simp [blockedStop] at h,
            fun _ => ⟨by simp [blockedStop], Or.inl hblk⟩⟩
      · refine ⟨fun h => by rcases h with h | h <;> simp [blockedStop] at h,
          fun _ => ⟨by simp [blockedStop], Or.inl hblk⟩⟩
    · split
      · rename_i hs
        exact ⟨fun h => by rcases h with h | h <;> simp at h,
          fun _ => ⟨by simp, Or.inr hs⟩⟩
      · split
        · split
          · split
            · simp [carAdvance_waiting]
            · simp
          · split
            · simp [carAdvance_waiting]
            · simp [carAdvance_waiting]
        · simp [carAdvance_waiting]

/-- Witness for the amended C4: a car advancing under green ends the tick
with a zero waiting counter. -/
theorem waiting_reset_on_move_witness :
    (updateSingleCar envG [carG] carG rngA).waiting = 0 :=
  (waiting_reset_on_move envG [carG] carG rngA).1
    (Or.inl (by with_unfolding_all decide))

/-- C5 counterexample: a car at the decision point of a straight lane,
not blocked, facing a red light, with its recorded inside-intersection
flag still `true`, has that flag set to `false` by the tick — the
recorded intersection state is not left unchanged. -/
theorem signal_halt_clears_flag :
    carR.inIntersection = true ∧
    isBlockedByOtherCar [carR] carR = false ∧
    haltedAtSignal envR carR = true ∧
    (updateSingleCar envR [carR] carR rngA).inIntersection = false := by
  with_unfolding_all decide

/-- C5 amended: an unblocked car whose signal-halt guard holds (decision
point of a straight lane, red or yellow one or two lane blocks ahead)
keeps its position and heading, has its waiting counter incremented by
exactly one, and has its recorded inside-intersection flag set to
`false`. -/
theorem signal_halt_effect (env : TrafficEnv) (cars : List Car) (car : Car)
    (rng : CarRng)
    (h1 : isBlockedByOtherCar cars car = false)
    (h2 : haltedAtSignal env car = true) :
    (updateSingleCar env cars car rng).x = car.x ∧
    (updateSingleCar env cars car rng).y = car.y ∧
    (updateSingleCar env cars car rng).direction = car.direction ∧
    (updateSingleCar env cars car rng).waiting = car.waiting + 1 ∧
    (updateSingleCar env cars car rng).inIntersection = false := by
  have hL : ∃ L, getLaneAt env car.x car.y = some L := by
    revert h2
    unfold haltedAtSignal
    cases h : getLaneAt env car.x car.y with
    | none => intro h2; cases h2
    | some L => intro _; exact ⟨L, rfl⟩
  obtain ⟨L, hL⟩ := hL
  simp only [updateSingleCar, hL, h1, h2]
  simp

/-- Witness for the amended C5 at the concrete red-light scenario. -/
theorem signal_halt_effect_witness :
    (updateSingleCar envR [carR] carR rngA).x = carR.x ∧
    (updateSingleCar envR [carR] carR rngA).y = carR.y ∧
    (updateSingleCar envR [carR] carR rngA).direction = carR.direction ∧
    (updateSingleCar envR [carR] carR rngA).waiting = carR.waiting + 1 ∧
    (updateSingleCar envR [carR] carR rngA).inIntersection = false :=
  signal_halt_effect envR [carR] carR rngA (by with_unfolding_all decide)
    (by with_unfolding_all decide)

-- ============================================
-- Off-road relocation and spawning (C7, C8)
-- ============================================

/-- Every entry of the relocation/spawn scan is a `RoadLane` origin cell
carrying the listed direction. -/
theorem straightLaneOrigins_mem (env : TrafficEnv) (p : ℕ × ℕ × Direction)
    (hp : p ∈ straightLaneOrigins env) :
    ∃ cell, getCell env.grid p.1 p.2.1 = some cell ∧
      cell.type = TileType.roadLane ∧ cell.isOrigin = true ∧
      cell.laneDirection = some p.2.2 := by
  unfold straightLaneOrigins at hp
  simp only [List.mem_flatMap, List.mem_filterMap, List.mem_range] at hp
  obtain ⟨gy, hgy, gx, hgx, hcell⟩ := hp
  revert hcell
  cases hc : getCell env.grid (gx : ℤ) (gy : ℤ) with
  | none => simp
  | some cell =>
    dsimp only
    split
    · rename_i hcond
      cases hd : cell.laneDirection with
      | none => simp [hd]
      | some d =>
        dsimp only
        intro he
        injection he with he'
        subst he'
        exact ⟨cell, hc, hcond.1, hcond.2, hd⟩
    · intro he; cases he

/-- C7 counterexample: on an all-grass grid the tick leaves an off-road
vehicle exactly where it was — it is not relocated to any lane-origin
position, because none exists. -/
theorem offroad_not_relocated_on_empty_grid :
    getLaneAt envE carE.x carE.y = none ∧
    straightLaneOrigins envE = [] ∧
    updateSingleCar envE [carE] carE rngA = carE := by
  with_unfolding_all decide

/-- C7 amended: when a vehicle's position resolves to no lane, the tick
relocates it to the center of the straight-lane origin block selected by
the random index — a `RoadLane` origin cell with direction metadata,
never an intersection tile — with heading set to that lane's direction
and waiting reset, provided at least one such origin exists; on a grid
with none the vehicle is left unchanged (still no error). -/
theorem offroad_relocation (env : TrafficEnv) (cars : List Car) (car : Car)
    (rng : CarRng) (h : getLaneAt env car.x car.y = none) :
    (straightLaneOrigins env = [] → updateSingleCar env cars car rng = car) ∧
    (∀ lane, (straightLaneOrigins env).get?
        (rng.laneIdx % (straightLaneOrigins env).length) = some lane →
      updateSingleCar env cars car rng =
        { car with x := (lane.1 : ℚ) + 1, y := (lane.2.1 : ℚ) + 1,
                   direction := lane.2.2, waiting := 0 } ∧
      ∃ cell, getCell env.grid lane.1 lane.2.1 = some cell ∧
        cell.type = TileType.roadLane ∧ cell.isOrigin = true ∧
        cell.laneDirection = some lane.2.2) := by
  simp only [updateSingleCar, h]
  unfold relocateCarToRoad
  dsimp only
  constructor
  · intro hos
    rw [hos]
    rfl
  · intro lane hlane
    rw [hlane]
    constructor
    · have h1 : (getLaneCenter lane.1 lane.2.1).1 = (lane.1 : ℚ) + 1 := by
        norm_num [getLaneCenter, ROAD_LANE_SIZE]
      have h2 : (getLaneCenter lane.1 lane.2.1).2 = (lane.2.1 : ℚ) + 1 := by
        norm_num [getLaneCenter, ROAD_LANE_SIZE]
      simp [h1, h2]
    · exact straightLaneOrigins_mem env lane (List.get?_mem hlane)

/-- Witness for the amended C7: the off-road car of `envR` is moved to
the center of the single straight-lane block. -/
theorem offroad_relocation_witness :
    updateSingleCar envR [carO] carO rngA =
      { carO with x := ((0 : ℕ) : ℚ) + 1, y := ((0 : ℕ) : ℚ) + 1,
                  direction := Direction.right, waiting := 0 } ∧
    ∃ cell, getCell envR.grid ((0 : ℕ) : ℤ) ((0 : ℕ) : ℤ) = some cell ∧
      cell.type = TileType.roadLane ∧ cell.isOrigin = true ∧
      cell.laneDirection = some Direction.right :=
  (offroad_relocation envR [carO] carO rngA (by with_unfolding_all decide)).2
    (0, 0, Direction.right) (by with_unfolding_all decide)

/-- C8: `spawnCar` fails with the list unchanged when no straight-lane
origin with direction metadata exists, or when some existing vehicle is
within distance 2.5 of the chosen lane center; otherwise it appends
exactly one vehicle at the center of the chosen straight-lane block,
facing that lane's direction, and returns success. -/
theorem spawnCar_spec (env : TrafficEnv) (cars : List Car) (rng : CarRng) :
    (straightLaneOrigins env = [] → spawnCar env cars rng = (false, cars)) ∧
    (∀ lane, (straightLaneOrigins env).get?
        (rng.laneIdx % (straightLaneOrigins env).length) = some lane →
      ((∃ c ∈ cars, distSq c.x c.y ((lane.1 : ℚ) + 1) ((lane.2.1 : ℚ) + 1) < 25 / 4) →
        spawnCar env cars rng = (false, cars)) ∧
      ((∀ c ∈ cars, ¬ distSq c.x c.y ((lane.1 : ℚ) + 1) ((lane.2.1 : ℚ) + 1) < 25 / 4) →
        ∃ newCar, spawnCar env cars rng = (true, cars ++ [newCar]) ∧
          newCar.x = (lane.1 : ℚ) + 1 ∧ newCar.y = (lane.2.1 : ℚ) + 1 ∧
          newCar.direction = lane.2.2 ∧ newCar.waiting = 0 ∧
          ∃ cell, getCell env.grid lane.1 lane.2.1 = some cell ∧
            cell.type = TileType.roadLane ∧ cell.isOrigin = true)) := by
  unfold spawnCar
  dsimp only
  constructor
  · intro hos
    rw [hos]
    rfl
  · intro lane hlane
    rw [hlane]
    dsimp only
    have h1 : (getLaneCenter lane.1 lane.2.1).1 = (lane.1 : ℚ) + 1 := by
      norm_num [getLaneCenter, ROAD_LANE_SIZE]
    have h2 : (getLaneCenter lane.1 lane.2.1).2 = (lane.2.1 : ℚ) + 1 := by
      norm_num [getLaneCenter, ROAD_LANE_SIZE]
    constructor
    · intro hex
      rw [if_pos]
      rw [List.any_eq_true]
      obtain ⟨c, hc, hd⟩ := hex
      refine ⟨c, hc, ?_⟩
      rw [h1, h2]
      exact decide_eq_true hd
    · intro hnone
      rw [if_neg]
      · refine ⟨_, rfl, h1, h2, rfl, rfl, ?_⟩
        obtain ⟨cell, hc, ht, ho, _⟩ := straightLaneOrigins_mem env lane (List.get?_mem hlane)
        exact ⟨cell, hc, ht, ho⟩
      · rw [List.any_eq_true]
        rintro ⟨c, hc, hd⟩
        rw [h1, h2] at hd
        exact hnone c hc (of_decide_eq_true hd)

/-- Witness for C8: spawning on `envR` with no existing cars appends one
car at the lane-block center facing right. -/
theorem spawnCar_spec_witness :
    ∃ newCar, spawnCar envR [] rngA = (true, [] ++ [newCar]) ∧
      newCar.x = ((0 : ℕ) : ℚ) + 1 ∧ newCar.y = ((0 : ℕ) : ℚ) + 1 ∧
      newCar.direction = Direction.right ∧ newCar.waiting = 0 ∧
      ∃ cell, getCell envR.grid ((0 : ℕ) : ℤ) ((0 : ℕ) : ℤ) = some cell ∧
        cell.type = TileType.roadLane ∧ cell.isOrigin = true :=
  ((spawnCar_spec envR [] rngA).2 (0, 0, Direction.right)
    (by with_unfolding_all decide)).2 (by simp)

-- ============================================
-- Bulk clears (C9)
-- ============================================

theorem removeFromAllCrosswalks_not_mem (reg : Registry) (id : ℕ) :
    ∀ e ∈ removeFromAllCrosswalks reg id, id ∉ e.2 := by
  intro e he
  unfold removeFromAllCrosswalks at he
  simp only [List.mem_map] at he
  obtain ⟨a, _, rfl⟩ := he
  simp [List.mem_filter]

theorem removeFromAllCrosswalks_pres (reg : Registry) (id x : ℕ)
    (h : ∀ e ∈ reg, x ∉ e.2) :
    ∀ e ∈ removeFromAllCrosswalks reg id, x ∉ e.2 := by
  intro e he
  unfold removeFromAllCrosswalks at he
  simp only [List.mem_map] at he
  obtain ⟨a, ha, rfl⟩ := he
  intro hx
  exact h a ha (List.mem_of_mem_filter hx)

theorem foldl_remove_clears (chars : List Character) :
    ∀ (reg : Registry), ∀ c ∈ chars,
      ∀ e ∈ chars.foldl (fun r ch => removeFromAllCrosswalks r ch.id) reg,
        c.id ∉ e.2 := by
  induction chars with
  | nil => intro reg c hc; cases hc
  | cons a as ih =>
    intro reg c hc e he
    simp only [List.foldl_cons] at he
    rcases List.mem_cons.mp hc with hca | hcas
    · subst hca
      revert he
      refine foldl_preserves (fun r => ∀ e ∈ r, c.id ∉ e.2)
        (fun r ch => removeFromAllCrosswalks r ch.id)
        (fun r ch hr => removeFromAllCrosswalks_pres r ch.id c.id hr) as _
        (removeFromAllCrosswalks_not_mem reg c.id) e
    · exact ih (removeFromAllCrosswalks reg a.id) c hcas e he

/-- C9: after `clearCars` the vehicle list is empty, and after
`clearCharacters` (with a signal collaborator present) the character list
is empty and every previously listed pedestrian's id has been removed
from every crosswalk of the registry. -/
theorem clear_spec (cars : List Car) (env : PedEnv) (chars : List Character)
    (reg : Registry) (t : PedSignals) (h : env.tlm = some t) :
    clearCars cars = [] ∧
    (clearCharacters env chars reg).1 = [] ∧
    ∀ c ∈ chars, ∀ e ∈ (clearCharacters env chars reg).2, c.id ∉ e.2 := by
  refine ⟨rfl, rfl, ?_⟩
  unfold clearCharacters
  rw [h]
  exact foldl_remove_clears chars reg

/-- Witness for C9 at a concrete registry holding two stale entries for
the cleared pedestrian. -/
theorem clear_spec_witness :
    clearCars [carR] = [] ∧
    (clearCharacters envP [pedP] ([(0, [7]), (1, [7, 9])] : Registry)).1 = [] ∧
    ∀ c ∈ [pedP], ∀ e ∈ (clearCharacters envP [pedP] ([(0, [7]), (1, [7, 9])] : Registry)).2,
      c.id ∉ e.2 :=
  clear_spec [carR] envP [pedP] ([(0, [7]), (1, [7, 9])] : Registry) sigP rfl

end Pogicity
